import Mathlib

/-!
Verification development for the HOMIES WWE bot (`src/main.py`), a turn-based
two-player combat minigame driven by chat webhook events.

The embedding below translates the game-relevant parts of `main.py` into pure
Lean functions:

* Python `int` quantities (hit points, resource counters, damage) become `Int`,
  with `max 0 _` floors written exactly where the source writes `max(0, ...)`.
* Python dicts keyed by user id / group id become association lists with a
  first-match lookup (`lookupKey`); Python dict keys are unique, which the
  frame lemmas reflect via `Nodup` hypotheses where needed.  The source keys
  `user_stats` by `str(user_id)`; since `str` is injective on ints we key the
  stats directly by the numeric id.
* A Python per-user stats dict with defaulted reads (`info.get("wins", 0)`,
  `setdefault`) is modelled as a total record `Rec` whose absent fields are the
  defaults (0 for counters, `none` for the name).
* Optional-string truthiness (`if move_choice_value:` treats both `None` and
  `""` as false) is `truthyOpt`.
* Chat messages, image rendering and the JSON stats file are external side
  effects with no influence on game state and are not modelled; the
  `save_stats_file` calls mark where the source persists the stats it has just
  mutated.
-/

namespace WWE

/-! ### Association-list helpers (Python dict operations) -/

/-- First-match lookup in an association list (`d.get(k)`). -/
def lookupKey {κ α : Type} [DecidableEq κ] : List (κ × α) → κ → Option α
  | [], _ => none
  | (k, v) :: rest, key => if k = key then some v else lookupKey rest key

/-- Replace the first binding of `key` (or append one): `d[k] = v`. -/
def setKey {κ α : Type} [DecidableEq κ] : List (κ × α) → κ → α → List (κ × α)
  | [], key, v => [(key, v)]
  | (k, w) :: rest, key, v =>
    if k = key then (key, v) :: rest else (k, w) :: setKey rest key v

/-- Remove the first binding of `key` (`d.pop(k, None)`). -/
def popKey {κ α : Type} [DecidableEq κ] : List (κ × α) → κ → List (κ × α)
  | [], _ => []
  | (k, w) :: rest, key => if k = key then rest else (k, w) :: popKey rest key

theorem lookupKey_setKey_self {κ α : Type} [DecidableEq κ]
    (l : List (κ × α)) (key : κ) (v : α) :
    lookupKey (setKey l key v) key = some v := by
  induction l with
  | nil => simp [setKey, lookupKey]
  | cons kv rest ih =>
    obtain ⟨k, w⟩ := kv
    by_cases h : k = key <;> simp [setKey, lookupKey, h, ih]

theorem lookupKey_setKey_ne {κ α : Type} [DecidableEq κ]
    (l : List (κ × α)) (key k' : κ) (v : α) (h : k' ≠ key) :
    lookupKey (setKey l key v) k' = lookupKey l k' := by
  induction l with
  | nil => simp [setKey, lookupKey, if_neg (Ne.symm h)]
  | cons kv rest ih =>
    obtain ⟨k, w⟩ := kv
    by_cases hk : k = key
    · subst hk
      simp [setKey, lookupKey, if_neg (Ne.symm h)]
    · simp [setKey, lookupKey, hk, ih]

theorem lookupKey_popKey_self {κ α : Type} [DecidableEq κ]
    (l : List (κ × α)) (key : κ) (hnd : (l.map Prod.fst).Nodup) :
    lookupKey (popKey l key) key = none := by
  induction l with
  | nil => simp [popKey, lookupKey]
  | cons kv rest ih =>
    obtain ⟨k, w⟩ := kv
    simp only [List.map_cons, List.nodup_cons] at hnd
    by_cases hk : k = key
    · subst hk
      -- the remaining bindings never mention `k` again
      simp only [popKey, if_pos rfl]
      clear ih
      induction rest with
      | nil => simp [lookupKey]
      | cons kv' rest' ih' =>
        obtain ⟨k', w'⟩ := kv'
        simp only [List.map_cons, List.mem_cons, List.nodup_cons] at hnd
        have hk' : k' ≠ k := fun h => hnd.1 (Or.inl h.symm)
        simp only [lookupKey, if_neg hk']
        exact ih' ⟨fun h => hnd.1 (Or.inr h), hnd.2.2⟩
    · simp only [popKey, if_neg hk, lookupKey, if_neg hk]
      exact ih hnd.2

/-! ### Per-user persisted record (`user_stats[uid]`) -/

/-- One user's persisted record.  In the source this is a string-keyed dict
whose reads are defaulted; the total record keeps the defaults explicit. -/
structure Rec where
  name : Option String
  wins : Nat
  losses : Nat
  draws : Nat
  specials_used : Nat
  specials_successful : Nat
deriving DecidableEq, Repr

/-- A user id absent from `user_stats` reads as all defaults. -/
def emptyRec : Rec :=
  { name := none, wins := 0, losses := 0, draws := 0,
    specials_used := 0, specials_successful := 0 }

/-- The whole `user_stats` mapping, keyed by numeric user id. -/
abbrev Stats := List (Nat × Rec)

/-- Defaulted read of a user's record (`user_stats.get(uid, {})` with
field-defaulted access). -/
def getRec (stats : Stats) (uid : Nat) : Rec :=
  (lookupKey stats uid).getD emptyRec

/-- Read-modify-write of one user's record
(`user_stats.setdefault(uid, {}); ...mutate fields...`). -/
def updStat (stats : Stats) (uid : Nat) (f : Rec → Rec) : Stats :=
  setKey stats uid (f (getRec stats uid))

theorem getRec_updStat_self (stats : Stats) (uid : Nat) (f : Rec → Rec) :
    getRec (updStat stats uid f) uid = f (getRec stats uid) := by
  simp [getRec, updStat, lookupKey_setKey_self]

theorem getRec_updStat_ne (stats : Stats) (uid k : Nat) (f : Rec → Rec)
    (h : k ≠ uid) : getRec (updStat stats uid f) k = getRec stats k := by
  simp [getRec, updStat, lookupKey_setKey_ne _ _ _ _ h]

theorem lookupKey_updStat_ne (stats : Stats) (uid k : Nat) (f : Rec → Rec)
    (h : k ≠ uid) : lookupKey (updStat stats uid f) k = lookupKey stats k := by
  simp [updStat, lookupKey_setKey_ne _ _ _ _ h]

/-! ### Game constants (`main.py` lines 52-65) -/

def MAX_HP : Int := 200
def MAX_SPECIALS_PER_MATCH : Int := 4
def MAX_REVERSALS_PER_MATCH : Int := 3
def MAX_NAME_LENGTH : Nat := 16

/-- The `MOVES` damage table (a dict in the source). -/
def MOVES : List (String × Int) :=
  [("punch", 5), ("kick", 15), ("slam", 25), ("dropkick", 30),
   ("suplex", 45), ("rko", 55), ("reversal", 0)]

/-- `damage_of` inside `resolve_turn_sync`: `MOVES.get(move_name, {}).get("dmg", 0)`.
The argument is optional because a move-choice slot may be `None`. -/
def damage_of : Option String → Int
  | none => 0
  | some m =>
    match lookupKey MOVES m with
    | some d => d
    | none => 0

/-! ### Match state (`games[group_id]` as built by `start_match_sync`) -/

/-- The per-player slice of a match: the entries of the `hp`, `specials_left`,
`reversals_left`, `last_move` and `move_choice` dicts for one player id. -/
structure PlayerState where
  hp : Int
  specials_left : Int
  reversals_left : Int
  last_move : Option String
  move_choice : Option String
deriving DecidableEq, Repr

/-- One active match.  The source's five dicts are each keyed by exactly the
two player ids, so they collapse into two `PlayerState`s.  The `names` dict and
`round_prompt_msg_ids` are presentation-only and omitted. -/
structure Game where
  p1 : Nat
  p2 : Nat
  s1 : PlayerState
  s2 : PlayerState
deriving DecidableEq, Repr

/-- All active matches, keyed by group id (`games`). -/
abbrev Games := List (String × Game)

/-- `start_match_sync(group_id, p1, p2)`: the fresh match state it stores in
`games[group_id]` (the announcement and first prompt are chat side effects). -/
def start_match_sync (p1 p2 : Nat) : Game :=
  { p1 := p1, p2 := p2,
    s1 := { hp := MAX_HP, specials_left := MAX_SPECIALS_PER_MATCH,
            reversals_left := MAX_REVERSALS_PER_MATCH,
            last_move := none, move_choice := none },
    s2 := { hp := MAX_HP, specials_left := MAX_SPECIALS_PER_MATCH,
            reversals_left := MAX_REVERSALS_PER_MATCH,
            last_move := none, move_choice := none } }

/-! ### Round resolution (`resolve_turn_sync`, lines 322-440) -/

/-- Total damage credited against player 1 this round (lines 342-348):
the reversal-reflection line plus the unless-reversed normal line. -/
def dmg_to_p1 (m1 m2 : Option String) : Int :=
  (if m2 = some "reversal" ∧ m1 ≠ some "reversal" then damage_of m1 else 0) +
  (if ¬ (m1 = some "reversal" ∧ m2 ≠ some "reversal") then damage_of m2 else 0)

/-- Total damage credited against player 2 this round (lines 342-348). -/
def dmg_to_p2 (m1 m2 : Option String) : Int :=
  (if m1 = some "reversal" ∧ m2 ≠ some "reversal" then damage_of m2 else 0) +
  (if ¬ (m2 = some "reversal" ∧ m1 ≠ some "reversal") then damage_of m1 else 0)

/-- `move in ("suplex", "rko")` on an optional move. -/
def isSpecialMove (m : Option String) : Prop :=
  m = some "suplex" ∨ m = some "rko"

instance (m : Option String) : Decidable (isSpecialMove m) := by
  unfold isSpecialMove; infer_instance

/-- `max(0, x - 1)`: resource decrement floored at zero. -/
def dec_floor (x : Int) : Int := max 0 (x - 1)

/-- Player 1's hit points after the exchange: `max(0, prev1 - dmg_to[p1])`. -/
def new_hp1 (g : Game) : Int :=
  max 0 (g.s1.hp - dmg_to_p1 g.s1.move_choice g.s2.move_choice)

/-- Player 2's hit points after the exchange: `max(0, prev2 - dmg_to[p2])`. -/
def new_hp2 (g : Game) : Int :=
  max 0 (g.s2.hp - dmg_to_p2 g.s1.move_choice g.s2.move_choice)

/-- Special-move bookkeeping for one player (lines 355-366): `specials_used`
always increments, `specials_successful` only when the opponent took damage. -/
def incSpecial (oppDamage : Int) (r : Rec) : Rec :=
  { r with specials_used := r.specials_used + 1,
           specials_successful :=
             if oppDamage > 0 then r.specials_successful + 1
             else r.specials_successful }

def incDraws (r : Rec) : Rec := { r with draws := r.draws + 1 }
def incWins (r : Rec) : Rec := { r with wins := r.wins + 1 }
def incLosses (r : Rec) : Rec := { r with losses := r.losses + 1 }

/-- The stats mutations of lines 355-366 (special-usage bookkeeping),
performed for player 1 then player 2, exactly as in the source. -/
def round_stats (g : Game) (stats : Stats) : Stats :=
  let d1 := dmg_to_p1 g.s1.move_choice g.s2.move_choice
  let d2 := dmg_to_p2 g.s1.move_choice g.s2.move_choice
  let st1 := if isSpecialMove g.s1.move_choice
             then updStat stats g.p1 (incSpecial d2) else stats
  if isSpecialMove g.s2.move_choice
  then updStat st1 g.p2 (incSpecial d1) else st1

/-- The continuing-match state built by the non-terminal branch of
`resolve_turn_sync`: damage applied, resources decremented (floored at zero),
`last_move` set to this round's move, both `move_choice` slots reset. -/
def next_round_game (g : Game) : Game :=
  { g with
    s1 := { hp := new_hp1 g,
            specials_left :=
              if isSpecialMove g.s1.move_choice
              then dec_floor g.s1.specials_left else g.s1.specials_left,
            reversals_left :=
              if g.s1.move_choice = some "reversal"
              then dec_floor g.s1.reversals_left else g.s1.reversals_left,
            last_move := g.s1.move_choice,
            move_choice := none },
    s2 := { hp := new_hp2 g,
            specials_left :=
              if isSpecialMove g.s2.move_choice
              then dec_floor g.s2.specials_left else g.s2.specials_left,
            reversals_left :=
              if g.s2.move_choice = some "reversal"
              then dec_floor g.s2.reversals_left else g.s2.reversals_left,
            last_move := g.s2.move_choice,
            move_choice := none } }

/-- How a resolved round ended. -/
inductive RoundOutcome where
  | draw
  | koWin (winner loser : Nat)
  | nextRound
deriving DecidableEq, Repr

/-- `resolve_turn_sync` (lines 322-440), restricted to its state effect:
the surviving match (if any), the updated stats, and the outcome.  The stats
are saved to disk (`save_stats_file`) right after the bookkeeping and again in
each terminal branch; messages, the one-second pacing sleep and the crowd-hype
flourish are chat side effects. -/
def resolve_turn_sync (g : Game) (stats : Stats) :
    Option Game × Stats × RoundOutcome :=
  let stats2 := round_stats g stats
  if new_hp1 g = 0 ∧ new_hp2 g = 0 then
    (none, updStat (updStat stats2 g.p1 incDraws) g.p2 incDraws,
     RoundOutcome.draw)
  else if new_hp1 g = 0 ∨ new_hp2 g = 0 then
    -- `winner = p2 if p1_dead else p1`
    let winner := if new_hp1 g = 0 then g.p2 else g.p1
    let loser := if new_hp1 g = 0 then g.p1 else g.p2
    (none, updStat (updStat stats2 winner incWins) loser incLosses,
     RoundOutcome.koWin winner loser)
  else
    (some (next_round_game g), stats2, RoundOutcome.nextRound)

/-! ### Move submission (`webhook_receiver`, `move|gid|move` branch, lines 649-693) -/

/-- Python truthiness of an optional string (`if value:`): `None` and the
empty string are falsy. -/
def truthyOpt : Option String → Bool
  | none => false
  | some s => s ≠ ""

/-- The per-player slice of a game seen by the handler (`game[...][pstr]`),
for `uid` one of the two players. -/
def sOf (g : Game) (uid : Nat) : PlayerState :=
  if uid = g.p1 then g.s1 else g.s2

/-- `game["move_choice"][pstr] = move`. -/
def setChoice (g : Game) (uid : Nat) (mv : String) : Game :=
  if uid = g.p1 then { g with s1 := { g.s1 with move_choice := some mv } }
  else { g with s2 := { g.s2 with move_choice := some mv } }

/-- The move-legality validation of lines 666-678, returning the
`blocked_reason` string when the move is refused. -/
def blocked_reason (mv : String) (last : Option String) (sp rv : Int) :
    Option String :=
  if mv = "suplex" ∨ mv = "rko" then
    if last = some "suplex" ∨ last = some "rko" then
      some "Can't use special back-to-back (cooldown)."
    else if sp ≤ 0 then some "No specials left."
    else none
  else if mv = "reversal" then
    if last = some "reversal" then
      some "Can't use reversal back-to-back (cooldown)."
    else if rv ≤ 0 then some "No reversals left."
    else none
  else none

/-- How the `move|...` callback branch answered. -/
inductive MoveResult where
  | notParticipant
  | alreadyChosen
  | blocked (reason : String)
  | recorded
  | resolved (out : RoundOutcome)
deriving DecidableEq, Repr

def MoveResult.isBlocked : MoveResult → Bool
  | .blocked _ => true
  | _ => false

def MoveResult.isResolved : MoveResult → Bool
  | .resolved _ => true
  | _ => false

/-- The `move|gid|move` callback branch (lines 649-693) for an existing match
`g`: participant check, already-chosen check, legality check; a legal move is
recorded, and when both recorded choices are truthy (Python `and` on the two
optional strings) the round resolves synchronously. -/
def handle_move (g : Game) (uid : Nat) (mv : String) (stats : Stats) :
    MoveResult × Option Game × Stats :=
  if ¬ (uid = g.p1 ∨ uid = g.p2) then (MoveResult.notParticipant, some g, stats)
  else if (sOf g uid).move_choice ≠ none then
    (MoveResult.alreadyChosen, some g, stats)
  else
    match blocked_reason mv (sOf g uid).last_move
        (sOf g uid).specials_left (sOf g uid).reversals_left with
    | some r => (MoveResult.blocked r, some g, stats)
    | none =>
      let g' := setChoice g uid mv
      if truthyOpt g'.s1.move_choice && truthyOpt g'.s2.move_choice then
        let res := resolve_turn_sync g' stats
        (MoveResult.resolved res.2.2, res.1, res.2.1)
      else (MoveResult.recorded, some g', stats)

/-! ### Voluntary match end (`confirm_end|gid|yes/no`, lines 696-730) -/

/-- The `confirm_end` callback for an existing match: on "yes" the opponent is
charged a win and the confirmer a loss (in that order, as in the source), the
stats are saved, and the match is removed from `games`; any other choice
leaves everything untouched. -/
def confirm_end (g : Game) (uid : Nat) (choice : String) (stats : Stats) :
    Option Game × Stats :=
  if ¬ (uid = g.p1 ∨ uid = g.p2) then (some g, stats)
  else
    -- `opponent = players[1] if players[0] == user_id else players[0]`
    let opponent := if g.p1 = uid then g.p2 else g.p1
    if choice = "yes" then
      (none, updStat (updStat stats opponent incWins) uid incLosses)
    else (some g, stats)

/-! ### Forfeit (`forfeit_yes` callback, lines 733-762) -/

/-- `user_id in game["players"]`. -/
def is_player (g : Game) (uid : Nat) : Bool :=
  uid == g.p1 || uid == g.p2

/-- `opp = p2 if user_id == p1 else p1`. -/
def forfeit_opp (g : Game) (uid : Nat) : Nat :=
  if uid = g.p1 then g.p2 else g.p1

/-- The stats accounting of a confirmed forfeit: opponent's win first, then
the forfeiter's loss, as in the source. -/
def forfeit_settle (g : Game) (uid : Nat) (stats : Stats) : Stats :=
  updStat (updStat stats (forfeit_opp g uid) incWins) uid incLosses

/-- The `forfeit_yes` callback: scan `games` in order, settle and remove the
first match containing the confirmer, then stop (`break`).  If no match
contains them, nothing changes. -/
def forfeit_yes : Games → Nat → Stats → Games × Stats
  | [], _, stats => ([], stats)
  | (gid, g) :: rest, uid, stats =>
    if is_player g uid then (rest, forfeit_settle g uid stats)
    else
      let r := forfeit_yes rest uid stats
      ((gid, g) :: r.1, r.2)

/-! ### Name registration (DM flow, lines 498-517) -/

/-- `str.lower()` (the registered names of interest are ASCII). -/
def lowerStr (s : String) : String := String.mk (s.data.map Char.toLower)

/-- The uniqueness scan of line 507: some other identity has a truthy name
equal to the requested one case-insensitively. -/
def name_taken (stats : Stats) (uid : Nat) (name : String) : Bool :=
  stats.any fun kv =>
    kv.1 != uid && truthyOpt kv.2.name &&
      (lowerStr (kv.2.name.getD "") == lowerStr name)

inductive RegResult where
  | invalidEmpty
  | invalidTooLong
  | taken
  | ok
deriving DecidableEq, Repr

/-- The registration validation and record update of lines 498-517, applied to
the already-stripped candidate name.  (`ensure_user` ran earlier in the DM
handler, so on success `setdefault` keeps any existing counters and a brand-new
identity gets the zeroed `emptyRec` defaults.) -/
def register (stats : Stats) (uid : Nat) (name : String) : RegResult × Stats :=
  if name = "" then (RegResult.invalidEmpty, stats)
  else if name.length > MAX_NAME_LENGTH then (RegResult.invalidTooLong, stats)
  else if name_taken stats uid name then (RegResult.taken, stats)
  else (RegResult.ok, updStat stats uid fun r => { r with name := some name })

/-! ### Lobby join/cancel callbacks (lines 611-646) -/

/-- An open lobby (`lobbies[gid]`).  The source also stores `players` (always
just the host) and the prompt's `message_id`; neither affects the logic. -/
structure Lobby where
  host : Nat
deriving DecidableEq, Repr

abbrev Lobbies := List (String × Lobby)

/-- `str(user_id) in user_stats and user_stats[str(user_id)].get("name")`. -/
def is_registered (stats : Stats) (uid : Nat) : Bool :=
  match lookupKey stats uid with
  | none => false
  | some r => truthyOpt r.name

inductive LobbyCbOutcome where
  | staleRemoved
  | notHostRejected
  | cancelled
  | selfJoinRejected
  | notRegisteredRejected
  | started
  | noAction
deriving DecidableEq, Repr

/-- The `join|gid|host` / `cancel_lobby|gid|host` callback branch
(lines 611-646), with `host_id` the id parsed out of the button's callback
data and `uid` the pressing user.  When the arena has no lobby, or its lobby's
host differs from the embedded `host_id`, the guard of lines 618-622 answers
"this lobby no longer exists" and pops whatever lobby the arena currently has. -/
def handle_lobby_cb (lobbies : Lobbies) (games : Games) (stats : Stats)
    (action gid : String) (host_id uid : Nat) :
    LobbyCbOutcome × Lobbies × Games :=
  match lookupKey lobbies gid with
  | none => (LobbyCbOutcome.staleRemoved, popKey lobbies gid, games)
  | some lb =>
    if lb.host ≠ host_id then
      (LobbyCbOutcome.staleRemoved, popKey lobbies gid, games)
    else if action = "cancel_lobby" then
      if uid ≠ host_id then (LobbyCbOutcome.notHostRejected, lobbies, games)
      else (LobbyCbOutcome.cancelled, popKey lobbies gid, games)
    else if action = "join" then
      if uid = host_id then (LobbyCbOutcome.selfJoinRejected, lobbies, games)
      else if ¬ is_registered stats uid then
        (LobbyCbOutcome.notRegisteredRejected, lobbies, games)
      else
        (LobbyCbOutcome.started, popKey lobbies gid,
         setKey games gid (start_match_sync host_id uid))
    else (LobbyCbOutcome.noAction, lobbies, games)

/-! ### Reachable match states and the resource/hit-point bounds -/

/-- The bounds the spec asserts for every live match. -/
def boundsOk (g : Game) : Prop :=
  0 ≤ g.s1.hp ∧ g.s1.hp ≤ MAX_HP ∧
  0 ≤ g.s2.hp ∧ g.s2.hp ≤ MAX_HP ∧
  0 ≤ g.s1.specials_left ∧ g.s1.specials_left ≤ MAX_SPECIALS_PER_MATCH ∧
  0 ≤ g.s2.specials_left ∧ g.s2.specials_left ≤ MAX_SPECIALS_PER_MATCH ∧
  0 ≤ g.s1.reversals_left ∧ g.s1.reversals_left ≤ MAX_REVERSALS_PER_MATCH ∧
  0 ≤ g.s2.reversals_left ∧ g.s2.reversals_left ≤ MAX_REVERSALS_PER_MATCH

/-- Match states reachable by the engine: `start_match_sync` creates a match,
and the only mutation a live match ever undergoes is a `move|...` callback
(which may resolve the round); `confirm_end`/`forfeit_yes` only destroy. -/
inductive ReachableGame : Game → Prop where
  | start (p1 p2 : Nat) : ReachableGame (start_match_sync p1 p2)
  | move (g g' : Game) (uid : Nat) (mv : String) (stats : Stats) :
      ReachableGame g → (handle_move g uid mv stats).2.1 = some g' →
      ReachableGame g'

/-! ### Basic facts about damage and bounds -/

theorem damage_of_reversal : damage_of (some "reversal") = 0 := rfl

theorem damage_of_nonneg (m : Option String) : 0 ≤ damage_of m := by
  cases m with
  | none => simp [damage_of]
  | some s =>
    simp only [damage_of, MOVES, lookupKey]
    split
    next d heq =>
      repeat' split at heq
      all_goals (first | (cases heq; norm_num) | simp_all)
    next => norm_num

theorem dmg_to_p1_nonneg (m1 m2 : Option String) : 0 ≤ dmg_to_p1 m1 m2 := by
  unfold dmg_to_p1
  have h1 := damage_of_nonneg m1
  have h2 := damage_of_nonneg m2
  split <;> split <;> omega

theorem dmg_to_p2_nonneg (m1 m2 : Option String) : 0 ≤ dmg_to_p2 m1 m2 := by
  unfold dmg_to_p2
  have h1 := damage_of_nonneg m1
  have h2 := damage_of_nonneg m2
  split <;> split <;> omega

theorem max0_nonneg (x : Int) : 0 ≤ max 0 x := le_max_left 0 x

theorem max0_le (x c : Int) (h0 : 0 ≤ c) (h : x ≤ c) : max 0 x ≤ c := max_le h0 h

theorem boundsOk_start (p1 p2 : Nat) : boundsOk (start_match_sync p1 p2) := by
  unfold boundsOk start_match_sync MAX_HP MAX_SPECIALS_PER_MATCH
    MAX_REVERSALS_PER_MATCH
  norm_num

theorem boundsOk_next_round (g : Game) (h : boundsOk g) :
    boundsOk (next_round_game g) := by
  obtain ⟨h1, h2, h3, h4, h5, h6, h7, h8, h9, h10, h11, h12⟩ := h
  have d1 := dmg_to_p1_nonneg g.s1.move_choice g.s2.move_choice
  have d2 := dmg_to_p2_nonneg g.s1.move_choice g.s2.move_choice
  unfold boundsOk MAX_HP MAX_SPECIALS_PER_MATCH MAX_REVERSALS_PER_MATCH at *
  refine ⟨?_, ?_, ?_, ?_, ?_, ?_, ?_, ?_, ?_, ?_, ?_, ?_⟩ <;>
    simp only [next_round_game, new_hp1, new_hp2, dec_floor] <;>
    try split
  all_goals
    first
      | exact max0_nonneg _
      | exact max0_le _ _ (by norm_num) (by omega)
      | omega

theorem boundsOk_setChoice (g : Game) (uid : Nat) (mv : String)
    (h : boundsOk g) : boundsOk (setChoice g uid mv) := by
  unfold setChoice
  split <;> exact h

theorem resolve_some_boundsOk (g g' : Game) (stats : Stats)
    (h : boundsOk g) (hr : (resolve_turn_sync g stats).1 = some g') :
    boundsOk g' := by
  simp only [resolve_turn_sync] at hr
  split at hr
  · simp at hr
  · split at hr
    · simp at hr
    · simp only [Option.some.injEq] at hr
      exact hr ▸ boundsOk_next_round g h

theorem handle_move_some_boundsOk (g g' : Game) (uid : Nat) (mv : String)
    (stats : Stats) (h : boundsOk g)
    (hr : (handle_move g uid mv stats).2.1 = some g') : boundsOk g' := by
  simp only [handle_move] at hr
  split at hr
  · simp only [Option.some.injEq] at hr
    exact hr ▸ h
  · split at hr
    · simp only [Option.some.injEq] at hr
      exact hr ▸ h
    · split at hr
      · simp only [Option.some.injEq] at hr
        exact hr ▸ h
      · split at hr
        · exact resolve_some_boundsOk _ g' stats
            (boundsOk_setChoice g uid mv h) hr
        · simp only [Option.some.injEq] at hr
          exact hr ▸ boundsOk_setChoice g uid mv h

/-! ### Claim theorems -/

/-- Claim C1: in a round resolution on submitted moves `(m1, m2)`, if exactly
one player chose reversal then the reversing player takes 0 damage and the
opponent takes their own move's base value; if neither or both chose reversal,
each player takes the opponent's move's base value (mutual reversal therefore
deals 0 to both, reversal's base damage being 0). -/
theorem claim_C1 (m1 m2 : String) :
    (m1 = "reversal" ∧ m2 ≠ "reversal" →
      dmg_to_p1 (some m1) (some m2) = 0 ∧
      dmg_to_p2 (some m1) (some m2) = damage_of (some m2)) ∧
    (m2 = "reversal" ∧ m1 ≠ "reversal" →
      dmg_to_p2 (some m1) (some m2) = 0 ∧
      dmg_to_p1 (some m1) (some m2) = damage_of (some m1)) ∧
    ((m1 = "reversal" ↔ m2 = "reversal") →
      dmg_to_p1 (some m1) (some m2) = damage_of (some m2) ∧
      dmg_to_p2 (some m1) (some m2) = damage_of (some m1)) := by
  by_cases hm1 : m1 = "reversal" <;> by_cases hm2 : m2 = "reversal" <;>
    simp [dmg_to_p1, dmg_to_p2, hm1, hm2, damage_of_reversal]

theorem claim_C1_witness :
    dmg_to_p1 (some "reversal") (some "slam") = 0 ∧
    dmg_to_p2 (some "reversal") (some "slam") = damage_of (some "slam") :=
  (claim_C1 "reversal" "slam").1 ⟨rfl, by decide⟩

/-- Claim C2: `start_match_sync` initializes both players to 200 hit points,
4 specials and 3 reversals, and in every reachable state of an active match
hit points stay in `[0, 200]`, specials-remaining in `[0, 4]` and
reversals-remaining in `[0, 3]` (damage and resource decrements are floored at
zero). -/
theorem claim_C2 :
    (∀ p1 p2 : Nat,
      (start_match_sync p1 p2).s1.hp = 200 ∧
      (start_match_sync p1 p2).s2.hp = 200 ∧
      (start_match_sync p1 p2).s1.specials_left = 4 ∧
      (start_match_sync p1 p2).s2.specials_left = 4 ∧
      (start_match_sync p1 p2).s1.reversals_left = 3 ∧
      (start_match_sync p1 p2).s2.reversals_left = 3) ∧
    (∀ g : Game, ReachableGame g → boundsOk g) := by
  constructor
  · intro p1 p2
    exact ⟨rfl, rfl, rfl, rfl, rfl, rfl⟩
  · intro g hg
    induction hg with
    | start p1 p2 => exact boundsOk_start p1 p2
    | move g g' uid mv stats _ hr ih =>
      exact handle_move_some_boundsOk g g' uid mv stats ih hr

theorem claim_C2_witness :
    boundsOk (start_match_sync 1 2) ∧ (start_match_sync 1 2).s1.hp = 200 :=
  ⟨claim_C2.2 _ (ReachableGame.start 1 2), (claim_C2.1 1 2).1⟩

/-- The C6 example state: a fresh match in which player one picked the medium
strike (`kick`, 15) and player two the heavy strike (`slam`, 25). -/
def c6Game : Game := setChoice (setChoice (start_match_sync 1 2) 1 "kick") 2 "slam"

/-- Counterexample to claim C6 as stated: on moves (kick=15, slam=25) from
fresh 200/200, resolution leaves hit points (175, 185) in player order —
each player takes the *opponent's* damage — not (185, 175) as claimed. -/
theorem claim_C6_counterexample :
    (handle_move (setChoice (start_match_sync 1 2) 1 "kick") 2 "slam" []).1
        = MoveResult.resolved RoundOutcome.nextRound ∧
    (handle_move (setChoice (start_match_sync 1 2) 1 "kick") 2 "slam" []).2.1
        = some (next_round_game c6Game) ∧
    (next_round_game c6Game).s1.hp = 175 ∧
    (next_round_game c6Game).s2.hp = 185 ∧
    ¬ ((next_round_game c6Game).s1.hp = 185 ∧
       (next_round_game c6Game).s2.hp = 175) := by
  refine ⟨rfl, rfl, rfl, rfl, ?_⟩
  decide

/-- Claim C6 (amended): for two fresh players at 200 HP, a round with player
one on the medium strike (kick, 15) and player two on the heavy strike
(slam, 25) resolves to hit points (175, 185) in that order — no draw, no
winner, both move slots reset for the next round — and the base damage table
is punch:5, kick:15, slam:25, dropkick:30, suplex:45, rko:55, reversal:0. -/
theorem claim_C6 :
    damage_of (some "punch") = 5 ∧ damage_of (some "kick") = 15 ∧
    damage_of (some "slam") = 25 ∧ damage_of (some "dropkick") = 30 ∧
    damage_of (some "suplex") = 45 ∧ damage_of (some "rko") = 55 ∧
    damage_of (some "reversal") = 0 ∧
    (resolve_turn_sync c6Game []).2.2 = RoundOutcome.nextRound ∧
    (resolve_turn_sync c6Game []).1 = some (next_round_game c6Game) ∧
    (next_round_game c6Game).s1.hp = 175 ∧
    (next_round_game c6Game).s2.hp = 185 ∧
    (next_round_game c6Game).s1.move_choice = none ∧
    (next_round_game c6Game).s2.move_choice = none := by
  decide

/-! ### Move-legality characterization -/

theorem blocked_reason_isSome_iff (mv : String) (last : Option String)
    (sp rv : Int) (hsp : 0 ≤ sp) (hrv : 0 ≤ rv) :
    (blocked_reason mv last sp rv).isSome = true ↔
      ((mv = "suplex" ∨ mv = "rko") ∧
        (last = some "suplex" ∨ last = some "rko" ∨ sp = 0)) ∨
      (mv = "reversal" ∧ (last = some "reversal" ∨ rv = 0)) := by
  unfold blocked_reason
  split_ifs <;> simp_all
  · tauto
  · exact Or.inl (by omega)
  · exact ⟨by omega, fun hr =>
      absurd hr (by rcases ‹mv = "suplex" ∨ mv = "rko"› with h | h <;> simp [h])⟩
  · omega
  · omega

theorem sOf_setChoice_self (g : Game) (uid : Nat) (mv : String) :
    (sOf (setChoice g uid mv) uid).move_choice = some mv := by
  unfold sOf setChoice
  by_cases h : uid = g.p1 <;> simp [h]

/-- Claim C3: for a participant of an active match with no pending choice this
round, a move is blocked exactly when it is a special (`suplex`/`rko`) whose
player's previous move was a special or whose specials-remaining is zero, or a
reversal whose player's previous move was a reversal or whose
reversals-remaining is zero (back-to-back blocking first, regardless of the
remaining count); on any block the match state and stats are returned
untouched, so the player may resubmit. -/
theorem claim_C3 (g : Game) (uid : Nat) (mv : String) (stats : Stats)
    (hpart : uid = g.p1 ∨ uid = g.p2)
    (hnc : (sOf g uid).move_choice = none)
    (hsp : 0 ≤ (sOf g uid).specials_left)
    (hrv : 0 ≤ (sOf g uid).reversals_left) :
    ((handle_move g uid mv stats).1.isBlocked = true ↔
      ((mv = "suplex" ∨ mv = "rko") ∧
        ((sOf g uid).last_move = some "suplex" ∨
         (sOf g uid).last_move = some "rko" ∨
         (sOf g uid).specials_left = 0)) ∨
      (mv = "reversal" ∧
        ((sOf g uid).last_move = some "reversal" ∨
         (sOf g uid).reversals_left = 0))) ∧
    ((handle_move g uid mv stats).1.isBlocked = true →
      (handle_move g uid mv stats).2 = (some g, stats)) := by
  have h1 : ¬ ¬ (uid = g.p1 ∨ uid = g.p2) := not_not_intro hpart
  have h2 : ¬ (sOf g uid).move_choice ≠ none := not_not_intro hnc
  have hiff := blocked_reason_isSome_iff mv (sOf g uid).last_move
      (sOf g uid).specials_left (sOf g uid).reversals_left hsp hrv
  cases hbr : blocked_reason mv (sOf g uid).last_move
      (sOf g uid).specials_left (sOf g uid).reversals_left with
  | some r =>
    rw [hbr] at hiff
    simp only [handle_move, if_neg h1, if_neg h2, hbr]
    constructor
    · simpa [MoveResult.isBlocked] using hiff
    · intro _
      trivial
  | none =>
    rw [hbr] at hiff
    simp only [Option.isSome_none, Bool.false_eq_true, false_iff] at hiff
    simp only [handle_move, if_neg h1, if_neg h2, hbr]
    constructor
    · split <;> simp [MoveResult.isBlocked, hiff]
    · split <;> simp [MoveResult.isBlocked]

/-- A state in which player 1 has exhausted their specials. -/
def c3Game : Game :=
  { p1 := 1, p2 := 2,
    s1 := { hp := 120, specials_left := 0, reversals_left := 3,
            last_move := none, move_choice := none },
    s2 := { hp := 180, specials_left := 4, reversals_left := 3,
            last_move := none, move_choice := none } }

theorem claim_C3_witness :
    (handle_move c3Game 1 "rko" []).1.isBlocked = true ∧
    (handle_move c3Game 1 "rko" []).2 = (some c3Game, []) := by
  have h := claim_C3 c3Game 1 "rko" [] (Or.inl rfl) rfl (by decide) (by decide)
  have hb : (handle_move c3Game 1 "rko" []).1.isBlocked = true :=
    h.1.mpr (Or.inl ⟨Or.inr rfl, Or.inr (Or.inr rfl)⟩)
  exact ⟨hb, h.2 hb⟩

/-- Claim C8: move submission is total over arbitrary move strings — any move
that is not a finisher (`suplex`/`rko`) and not `reversal` passes validation
(never `MoveBlocked`), is recorded as the submitter's pending choice, and an
unrecognized move name contributes 0 damage at resolution through the
defaulting damage lookup (resolution itself is a total function). -/
theorem claim_C8 :
    (∀ (mv : String) (last : Option String) (sp rv : Int),
      ¬ (mv = "suplex" ∨ mv = "rko" ∨ mv = "reversal") →
      blocked_reason mv last sp rv = none) ∧
    (∀ (g : Game) (uid : Nat) (mv : String) (stats : Stats),
      (uid = g.p1 ∨ uid = g.p2) → (sOf g uid).move_choice = none →
      ¬ (mv = "suplex" ∨ mv = "rko" ∨ mv = "reversal") →
      (handle_move g uid mv stats).1.isBlocked = false ∧
      (sOf (setChoice g uid mv) uid).move_choice = some mv ∧
      ((truthyOpt (setChoice g uid mv).s1.move_choice &&
          truthyOpt (setChoice g uid mv).s2.move_choice) = false →
        handle_move g uid mv stats =
          (MoveResult.recorded, some (setChoice g uid mv), stats))) ∧
    (∀ s : String, lookupKey MOVES s = none → damage_of (some s) = 0) := by
  have hbr : ∀ (mv : String) (last : Option String) (sp rv : Int),
      ¬ (mv = "suplex" ∨ mv = "rko" ∨ mv = "reversal") →
      blocked_reason mv last sp rv = none := by
    intro mv last sp rv h
    push_neg at h
    simp [blocked_reason, h.1, h.2.1, h.2.2]
  refine ⟨hbr, ?_, ?_⟩
  · intro g uid mv stats hpart hnc hmv
    have h1 : ¬ ¬ (uid = g.p1 ∨ uid = g.p2) := not_not_intro hpart
    have h2 : ¬ (sOf g uid).move_choice ≠ none := not_not_intro hnc
    simp only [handle_move, if_neg h1, if_neg h2,
      hbr mv (sOf g uid).last_move (sOf g uid).specials_left
        (sOf g uid).reversals_left hmv]
    refine ⟨?_, sOf_setChoice_self g uid mv, ?_⟩
    · split <;> simp [MoveResult.isBlocked]
    · intro hfalse
      rw [if_neg (by simp [hfalse])]
  · intro s hs
    simp [damage_of, hs]

theorem claim_C8_witness :
    blocked_reason "headbutt" none 0 0 = none ∧
    (handle_move (start_match_sync 1 2) 1 "headbutt" []).1.isBlocked = false ∧
    (sOf (setChoice (start_match_sync 1 2) 1 "headbutt") 1).move_choice
      = some "headbutt" ∧
    damage_of (some "headbutt") = 0 := by
  have h := claim_C8.2.1 (start_match_sync 1 2) 1 "headbutt" []
    (Or.inl rfl) rfl (by decide)
  exact ⟨claim_C8.1 "headbutt" none 0 0 (by decide), h.1, h.2.1,
    claim_C8.2.2 "headbutt" (by decide)⟩

/-! ### Stats bookkeeping only touches the special-usage counters -/

theorem getRec_updStat_draws (stats : Stats) (uid k : Nat) (f : Rec → Rec)
    (hf : ∀ r, (f r).draws = r.draws) :
    (getRec (updStat stats uid f) k).draws = (getRec stats k).draws := by
  by_cases h : k = uid
  · subst h
    rw [getRec_updStat_self]
    exact hf _
  · rw [getRec_updStat_ne _ _ _ _ h]

theorem getRec_updStat_wins (stats : Stats) (uid k : Nat) (f : Rec → Rec)
    (hf : ∀ r, (f r).wins = r.wins) :
    (getRec (updStat stats uid f) k).wins = (getRec stats k).wins := by
  by_cases h : k = uid
  · subst h
    rw [getRec_updStat_self]
    exact hf _
  · rw [getRec_updStat_ne _ _ _ _ h]

theorem getRec_updStat_losses (stats : Stats) (uid k : Nat) (f : Rec → Rec)
    (hf : ∀ r, (f r).losses = r.losses) :
    (getRec (updStat stats uid f) k).losses = (getRec stats k).losses := by
  by_cases h : k = uid
  · subst h
    rw [getRec_updStat_self]
    exact hf _
  · rw [getRec_updStat_ne _ _ _ _ h]

theorem getRec_updStat_incSpecial_draws (stats : Stats) (uid k : Nat) (d : Int) :
    (getRec (updStat stats uid (incSpecial d)) k).draws
      = (getRec stats k).draws :=
  getRec_updStat_draws stats uid k _ (fun _ => rfl)

theorem getRec_updStat_incSpecial_wins (stats : Stats) (uid k : Nat) (d : Int) :
    (getRec (updStat stats uid (incSpecial d)) k).wins
      = (getRec stats k).wins :=
  getRec_updStat_wins stats uid k _ (fun _ => rfl)

theorem getRec_updStat_incSpecial_losses (stats : Stats) (uid k : Nat) (d : Int) :
    (getRec (updStat stats uid (incSpecial d)) k).losses
      = (getRec stats k).losses :=
  getRec_updStat_losses stats uid k _ (fun _ => rfl)

theorem round_stats_draws (g : Game) (stats : Stats) (k : Nat) :
    (getRec (round_stats g stats) k).draws = (getRec stats k).draws := by
  unfold round_stats
  split <;> split <;>
    simp only [getRec_updStat_incSpecial_draws]

theorem round_stats_wins (g : Game) (stats : Stats) (k : Nat) :
    (getRec (round_stats g stats) k).wins = (getRec stats k).wins := by
  unfold round_stats
  split <;> split <;>
    simp only [getRec_updStat_incSpecial_wins]

theorem round_stats_losses (g : Game) (stats : Stats) (k : Nat) :
    (getRec (round_stats g stats) k).losses = (getRec stats k).losses := by
  unfold round_stats
  split <;> split <;>
    simp only [getRec_updStat_incSpecial_losses]

/-! ### Claim C4 -/

/-- The state after player one submits the empty-string move (callback data
`move|gid|`, which parses to the move `""`). -/
def c4Game : Game := setChoice (start_match_sync 1 2) 1 ""

/-- Counterexample to claim C4 as stated: resolution does *not* run whenever
both players' choices are present.  Player one's legal submission of the
empty-string move is recorded; player two's subsequent legal submission of
`punch` is also recorded, leaving both choices present — yet the handler
answers `recorded`, not `resolved`, because the both-chosen test uses string
truthiness and the recorded `""` is falsy. -/
theorem claim_C4_counterexample :
    (handle_move (start_match_sync 1 2) 1 "" []).1 = MoveResult.recorded ∧
    (handle_move (start_match_sync 1 2) 1 "" []).2.1 = some c4Game ∧
    (handle_move c4Game 2 "punch" []).1 = MoveResult.recorded ∧
    (handle_move c4Game 2 "punch" []).2.1 = some (setChoice c4Game 2 "punch") ∧
    (setChoice c4Game 2 "punch").s1.move_choice = some "" ∧
    (setChoice c4Game 2 "punch").s2.move_choice = some "punch" := by
  decide

/-- Claim C4 (amended): a legal move submission triggers round resolution
synchronously exactly when, after recording it, both players' choices are
present and non-empty (the source's both-chosen check applies Python
truthiness to the two optional strings, so a recorded `""` never triggers).
The terminal check of resolution: if both players' hit points reach zero the
same round, both draw counters increment and the match is destroyed; if
exactly one reaches zero, the survivor's win counter and the other's loss
counter increment and the match is destroyed; otherwise both move-choice
slots are reset to unset and the match continues into the next round.
(The stats are written to the stats file in each of these branches.) -/
theorem claim_C4 :
    (∀ (g : Game) (uid : Nat) (mv : String) (stats : Stats),
      (uid = g.p1 ∨ uid = g.p2) → (sOf g uid).move_choice = none →
      blocked_reason mv (sOf g uid).last_move (sOf g uid).specials_left
        (sOf g uid).reversals_left = none →
      (handle_move g uid mv stats).1.isResolved =
        (truthyOpt (setChoice g uid mv).s1.move_choice &&
         truthyOpt (setChoice g uid mv).s2.move_choice)) ∧
    (∀ (g : Game) (stats : Stats), g.p1 ≠ g.p2 →
      (new_hp1 g = 0 → new_hp2 g = 0 →
        (resolve_turn_sync g stats).1 = none ∧
        (resolve_turn_sync g stats).2.2 = RoundOutcome.draw ∧
        (getRec (resolve_turn_sync g stats).2.1 g.p1).draws
          = (getRec stats g.p1).draws + 1 ∧
        (getRec (resolve_turn_sync g stats).2.1 g.p2).draws
          = (getRec stats g.p2).draws + 1) ∧
      (new_hp1 g = 0 → new_hp2 g ≠ 0 →
        (resolve_turn_sync g stats).1 = none ∧
        (resolve_turn_sync g stats).2.2 = RoundOutcome.koWin g.p2 g.p1 ∧
        (getRec (resolve_turn_sync g stats).2.1 g.p2).wins
          = (getRec stats g.p2).wins + 1 ∧
        (getRec (resolve_turn_sync g stats).2.1 g.p1).losses
          = (getRec stats g.p1).losses + 1) ∧
      (new_hp1 g ≠ 0 → new_hp2 g = 0 →
        (resolve_turn_sync g stats).1 = none ∧
        (resolve_turn_sync g stats).2.2 = RoundOutcome.koWin g.p1 g.p2 ∧
        (getRec (resolve_turn_sync g stats).2.1 g.p1).wins
          = (getRec stats g.p1).wins + 1 ∧
        (getRec (resolve_turn_sync g stats).2.1 g.p2).losses
          = (getRec stats g.p2).losses + 1) ∧
      (new_hp1 g ≠ 0 → new_hp2 g ≠ 0 →
        (resolve_turn_sync g stats).1 = some (next_round_game g) ∧
        (resolve_turn_sync g stats).2.2 = RoundOutcome.nextRound ∧
        (next_round_game g).s1.move_choice = none ∧
        (next_round_game g).s2.move_choice = none)) := by
  constructor
  · intro g uid mv stats hpart hnc hbr
    have h1 : ¬ ¬ (uid = g.p1 ∨ uid = g.p2) := not_not_intro hpart
    have h2 : ¬ (sOf g uid).move_choice ≠ none := not_not_intro hnc
    simp only [handle_move, if_neg h1, if_neg h2, hbr]
    split
    next h => simp [MoveResult.isResolved, h]
    next h =>
      simp only [Bool.not_eq_true] at h
      simp [MoveResult.isResolved, h]
  · intro g stats hne
    have hne' : g.p2 ≠ g.p1 := Ne.symm hne
    refine ⟨?_, ?_, ?_, ?_⟩
    · intro h1 h2
      simp only [resolve_turn_sync, h1, h2]
      norm_num
      refine ⟨?_, ?_⟩
      · rw [getRec_updStat_ne _ _ _ _ hne, getRec_updStat_self]
        simp [incDraws, round_stats_draws]
      · rw [getRec_updStat_self, getRec_updStat_ne _ _ _ _ hne']
        simp [incDraws, round_stats_draws]
    · intro h1 h2
      simp only [resolve_turn_sync, h1, h2]
      norm_num
      refine ⟨?_, ?_⟩
      · rw [getRec_updStat_ne _ _ _ _ hne', getRec_updStat_self]
        simp [incWins, round_stats_wins]
      · rw [getRec_updStat_self, getRec_updStat_ne _ _ _ _ hne]
        simp [incLosses, round_stats_losses]
    · intro h1 h2
      simp only [resolve_turn_sync, h1, h2]
      norm_num
      refine ⟨?_, ?_⟩
      · rw [getRec_updStat_ne _ _ _ _ hne, getRec_updStat_self]
        simp [incWins, round_stats_wins]
      · rw [getRec_updStat_self, getRec_updStat_ne _ _ _ _ hne']
        simp [incLosses, round_stats_losses]
    · intro h1 h2
      simp only [resolve_turn_sync, h1, h2]
      norm_num
      exact ⟨rfl, rfl⟩

theorem claim_C4_witness :
    (handle_move (start_match_sync 1 2) 1 "punch" []).1.isResolved = false ∧
    (resolve_turn_sync c6Game []).1 = some (next_round_game c6Game) := by
  constructor
  · rw [claim_C4.1 (start_match_sync 1 2) 1 "punch" [] (Or.inl rfl) rfl rfl]
    decide
  · exact ((claim_C4.2 c6Game [] (by decide)).2.2.2 (by decide) (by decide)).1

/-! ### Claim C5 -/

theorem forfeit_opp_ne (g : Game) (uid : Nat) (hpart : uid = g.p1 ∨ uid = g.p2)
    (hne : g.p1 ≠ g.p2) : forfeit_opp g uid ≠ uid := by
  unfold forfeit_opp
  rcases hpart with h | h
  · subst h
    simp [Ne.symm hne]
  · subst h
    rw [if_neg (fun hh => hne hh.symm)]
    exact hne

theorem forfeit_settle_spec (g : Game) (uid : Nat) (stats : Stats)
    (hopp : forfeit_opp g uid ≠ uid) :
    (getRec (forfeit_settle g uid stats) (forfeit_opp g uid)).wins
      = (getRec stats (forfeit_opp g uid)).wins + 1 ∧
    (getRec (forfeit_settle g uid stats) uid).losses
      = (getRec stats uid).losses + 1 := by
  unfold forfeit_settle
  constructor
  · rw [getRec_updStat_ne _ _ _ _ hopp, getRec_updStat_self]
    simp [incWins]
  · rw [getRec_updStat_self, getRec_updStat_ne _ _ _ _ (Ne.symm hopp)]
    simp [incLosses]

theorem confirm_end_yes (g : Game) (uid : Nat) (stats : Stats)
    (hpart : uid = g.p1 ∨ uid = g.p2) :
    confirm_end g uid "yes" stats = (none, forfeit_settle g uid stats) := by
  unfold confirm_end forfeit_settle forfeit_opp
  rw [if_neg (not_not_intro hpart)]
  by_cases h : uid = g.p1
  · simp [h]
  · have h' : ¬ g.p1 = uid := fun hh => h hh.symm
    simp [h, h']

/-- Claim C5: at any hit-point values of an active match, a confirmed
voluntary end (`confirm_end ... "yes"`) or confirmed forfeit charges the
confirming player a loss and the opponent a win and destroys the match
immediately, while a "no"-style answer leaves the match and stats completely
untouched.  (The source persists the stats in the "yes" branches.) -/
theorem claim_C5 (g : Game) (gid : String) (uid : Nat) (stats : Stats)
    (hpart : uid = g.p1 ∨ uid = g.p2) (hne : g.p1 ≠ g.p2) :
    (confirm_end g uid "yes" stats).1 = none ∧
    (getRec (confirm_end g uid "yes" stats).2 (forfeit_opp g uid)).wins
      = (getRec stats (forfeit_opp g uid)).wins + 1 ∧
    (getRec (confirm_end g uid "yes" stats).2 uid).losses
      = (getRec stats uid).losses + 1 ∧
    (∀ choice : String, choice ≠ "yes" →
      confirm_end g uid choice stats = (some g, stats)) ∧
    forfeit_yes [(gid, g)] uid stats = ([], forfeit_settle g uid stats) ∧
    (getRec (forfeit_settle g uid stats) (forfeit_opp g uid)).wins
      = (getRec stats (forfeit_opp g uid)).wins + 1 ∧
    (getRec (forfeit_settle g uid stats) uid).losses
      = (getRec stats uid).losses + 1 := by
  have hopp := forfeit_opp_ne g uid hpart hne
  have hs := forfeit_settle_spec g uid stats hopp
  have hy := confirm_end_yes g uid stats hpart
  refine ⟨by rw [hy], by rw [hy]; exact hs.1, by rw [hy]; exact hs.2,
    ?_, ?_, hs.1, hs.2⟩
  · intro choice hc
    unfold confirm_end
    rw [if_neg (not_not_intro hpart), if_neg hc]
  · have hp : is_player g uid = true := by
      rcases hpart with h | h <;> simp [is_player, h]
    simp [forfeit_yes, hp]

theorem claim_C5_witness :
    (confirm_end (start_match_sync 1 2) 1 "yes" []).1 = none ∧
    (getRec (confirm_end (start_match_sync 1 2) 1 "yes" []).2 2).wins = 1 ∧
    (getRec (confirm_end (start_match_sync 1 2) 1 "yes" []).2 1).losses = 1 ∧
    confirm_end (start_match_sync 1 2) 1 "no" []
      = (some (start_match_sync 1 2), []) := by
  have h := claim_C5 (start_match_sync 1 2) "g" 1 [] (Or.inl rfl) (by decide)
  have h2 := h.2.1
  have h3 := h.2.2.1
  norm_num [forfeit_opp, getRec, lookupKey, emptyRec] at h2 h3
  exact ⟨h.1, h2, h3, h.2.2.2.1 "no" (by decide)⟩

/-! ### Claim C7 -/

/-- Claim C7: registration fails with the name-taken error whenever another
identity already holds the requested (nonempty, length-valid) name compared
case-insensitively, fails with the invalid-name errors when the name is empty
or longer than 16 characters, succeeds otherwise by setting the requester's
name (a brand-new identity keeps the zeroed default counters), and in every
failure case the stats are returned unchanged. -/
theorem claim_C7 :
    (∀ (stats : Stats) (uid : Nat) (name : String),
      name ≠ "" → name.length ≤ MAX_NAME_LENGTH →
      name_taken stats uid name = true →
      register stats uid name = (RegResult.taken, stats)) ∧
    (∀ (stats : Stats) (uid : Nat) (name : String),
      name = "" → register stats uid name = (RegResult.invalidEmpty, stats)) ∧
    (∀ (stats : Stats) (uid : Nat) (name : String),
      name ≠ "" → name.length > MAX_NAME_LENGTH →
      register stats uid name = (RegResult.invalidTooLong, stats)) ∧
    (∀ (stats : Stats) (uid : Nat) (name : String),
      name ≠ "" → name.length ≤ MAX_NAME_LENGTH →
      name_taken stats uid name = false →
      (register stats uid name).1 = RegResult.ok ∧
      getRec (register stats uid name).2 uid
        = { getRec stats uid with name := some name } ∧
      ∀ k, k ≠ uid →
        lookupKey (register stats uid name).2 k = lookupKey stats k) := by
  refine ⟨?_, ?_, ?_, ?_⟩
  · intro stats uid name h0 hlen ht
    have hlen' : ¬ name.length > MAX_NAME_LENGTH := by omega
    simp [register, h0, hlen', ht]
  · intro stats uid name h0
    simp [register, h0]
  · intro stats uid name h0 hlen
    simp [register, h0, hlen]
  · intro stats uid name h0 hlen hf
    have hlen' : ¬ name.length > MAX_NAME_LENGTH := by omega
    refine ⟨?_, ?_, ?_⟩
    · simp [register, h0, hlen', hf]
    · simp [register, h0, hlen', hf, getRec_updStat_self]
    · intro k hk
      simp [register, h0, hlen', hf, lookupKey_updStat_ne _ _ _ _ hk]

/-- The stats after identity 1 successfully registers the name "Rocky". -/
def rockyStats : Stats := (register [] 1 "Rocky").2

theorem claim_C7_witness :
    (register [] 1 "Rocky").1 = RegResult.ok ∧
    register rockyStats 2 "rocky" = (RegResult.taken, rockyStats) :=
  ⟨(claim_C7.2.2.2 [] 1 "Rocky" (by decide) (by decide) (by decide)).1,
   claim_C7.1 rockyStats 2 "rocky" (by decide) (by decide) (by decide)⟩

/-! ### Claim C9 -/

/-- Claim C9: a join or cancel-lobby callback whose embedded host id differs
from the host of the arena's currently open lobby (a stale button from an
earlier lobby message, pressed by any user) makes the handler answer
"this lobby no longer exists" and *remove the arena's currently open lobby*,
rather than rejecting the callback and leaving the lobby intact. -/
theorem claim_C9 (lobbies : Lobbies) (games : Games) (stats : Stats)
    (action gid : String) (host_id uid : Nat) (lb : Lobby)
    (hlb : lookupKey lobbies gid = some lb) (hstale : lb.host ≠ host_id)
    (hnd : (lobbies.map Prod.fst).Nodup) :
    handle_lobby_cb lobbies games stats action gid host_id uid
      = (LobbyCbOutcome.staleRemoved, popKey lobbies gid, games) ∧
    lookupKey (popKey lobbies gid) gid = none := by
  constructor
  · simp only [handle_lobby_cb, hlb]
    rw [if_pos hstale]
  · exact lookupKey_popKey_self lobbies gid hnd

theorem claim_C9_witness :
    handle_lobby_cb [("arena", { host := 1 })] [] [] "join" "arena" 2 3
      = (LobbyCbOutcome.staleRemoved, [], []) ∧
    lookupKey (popKey [("arena", ({ host := 1 } : Lobby))] "arena") "arena"
      = none := by
  have h := claim_C9 [("arena", { host := 1 })] [] [] "join" "arena" 2 3
    { host := 1 } (by decide) (by decide) (by decide)
  exact ⟨by simpa using h.1, h.2⟩

/-! ### Claim C10 -/

theorem forfeit_yes_first_match (pre post : Games) (gid : String) (g : Game)
    (uid : Nat) (stats : Stats)
    (hpre : ∀ e ∈ pre, is_player e.2 uid = false)
    (hg : is_player g uid = true) :
    forfeit_yes (pre ++ (gid, g) :: post) uid stats
      = (pre ++ post, forfeit_settle g uid stats) := by
  revert hpre
  induction pre with
  | nil =>
    intro _
    simp [forfeit_yes, hg]
  | cons e rest ih =>
    intro hpre
    obtain ⟨gid', g'⟩ := e
    have h1 : is_player g' uid = false := hpre _ (List.mem_cons_self _ _)
    have ih' := ih (fun e he => hpre e (List.mem_cons_of_mem _ he))
    simp [forfeit_yes, h1, ih']

/-- Claim C10: confirming a forfeit settles at most one match — the handler
applies the loss/win accounting and destruction to the *first* match in the
scan order that contains the confirming player, and stops; every other
arena's match survives unchanged (in order), and the stats of every player
other than the two involved are untouched (lobbies are not touched at all —
`forfeit_yes` never reads or writes them). -/
theorem claim_C10 (pre post : Games) (gid : String) (g : Game) (uid : Nat)
    (stats : Stats)
    (hpre : ∀ e ∈ pre, is_player e.2 uid = false)
    (hg : is_player g uid = true) :
    forfeit_yes (pre ++ (gid, g) :: post) uid stats
      = (pre ++ post, forfeit_settle g uid stats) ∧
    ∀ k : Nat, k ≠ forfeit_opp g uid → k ≠ uid →
      lookupKey (forfeit_settle g uid stats) k = lookupKey stats k := by
  refine ⟨forfeit_yes_first_match pre post gid g uid stats hpre hg, ?_⟩
  intro k hkopp hkuid
  unfold forfeit_settle
  rw [lookupKey_updStat_ne _ _ _ _ hkuid, lookupKey_updStat_ne _ _ _ _ hkopp]

/-- Two concrete matches used by the C10 witness. -/
def gAlpha : Game := start_match_sync 1 2
def gBeta : Game := start_match_sync 5 6

theorem claim_C10_witness :
    forfeit_yes [("a", gAlpha), ("b", gBeta), ("c", gAlpha)] 5 []
      = ([("a", gAlpha), ("c", gAlpha)], forfeit_settle gBeta 5 []) ∧
    lookupKey (forfeit_settle gBeta 5 []) 1 = lookupKey ([] : Stats) 1 := by
  have h := claim_C10 [("a", gAlpha)] [("c", gAlpha)] "b" gBeta 5 []
    (by decide) (by decide)
  exact ⟨by simpa using h.1, h.2 1 (by decide) (by decide)⟩

end WWE
